import Mathlib

/-!
Shallow embedding of the classification pipeline of
`src/streamlit_app.py` (a trial-balance cost classifier): taxonomy
loading (`load_category_table`), prompt rendering
(`generate_category_prompt`), per-item classification and reply parsing
(`classify_text`), and the batch loop with its 500-row limit.

Python strings are modelled by Lean `String`; the subset of Python
values that can reach `classify_text` is modelled by `PyVal`; the
external OpenAI call is a parameter `oracle : String → Except String
String` (`.ok` is a successful exchange whose payload is the reply text,
`.error e` an exception whose `str()` is `e`); `pandas` missing cells
are `Option.none`.
-/

set_option maxRecDepth 10000

namespace TrialBalance

/-- Python `sep.join(xs)`: empty for the empty list, otherwise the items
interleaved with the separator. -/
def pyJoin (sep : String) : List String → String
  | [] => ""
  | x :: rest => rest.foldl (fun acc y => acc ++ sep ++ y) x

/-- Character-level worker for Python `str.split(sep)` with a non-empty
separator: scan left to right, cutting at each non-overlapping
occurrence of the separator. `acc` holds the current fragment reversed;
`fuel` bounds the number of scan steps (each step consumes at least one
character, so `fuel = length` never runs out, and at the empty remainder
the two fuel branches agree). -/
def splitChars (sep : List Char) : Nat → List Char → List Char → List (List Char)
  | 0, acc, s => [acc.reverse ++ s]
  | fuel + 1, acc, s =>
    match s with
    | [] => [acc.reverse]
    | c :: rest =>
      if sep.isPrefixOf (c :: rest) then
        acc.reverse :: splitChars sep fuel [] ((c :: rest).drop sep.length)
      else
        splitChars sep fuel (c :: acc) rest

/-- Python `s.split(sep)` for a non-empty separator. -/
def pySplit (sep s : String) : List String :=
  (splitChars sep.data s.data.length [] s.data).map String.mk

/-- Python `s.strip()`: drop whitespace from both ends. (The Lean
`Char.isWhitespace` covers space, tab, carriage return and line feed;
the further Unicode whitespace Python also strips plays no role here.) -/
def pyStrip (s : String) : String :=
  String.mk (((s.data.dropWhile Char.isWhitespace).reverse.dropWhile Char.isWhitespace).reverse)

/-- Python `needle in hay` substring membership, for a non-empty needle
(the only case the source uses): splitting on the needle produces at
least two parts exactly when the needle occurs in the haystack. -/
def pyContains (needle hay : String) : Bool :=
  (pySplit needle hay).length ≥ 2

/-- Python `str.splitlines()` for line-feed separated text: split on the
line feed character and drop the final empty fragment produced by a
trailing newline (so that, as in Python, a terminating newline does not
yield an extra empty line). Carriage returns and the other Unicode line
breaks Python also splits on are not modelled; none of the properties
below depend on them. -/
def splitlines (s : String) : List String :=
  let parts := pySplit "\n" s
  if parts.getLast? = some "" then parts.dropLast else parts

/-- A Python value as it can reach `classify_text`: `None`, the float
`nan` (what pandas puts in a blank spreadsheet cell), a string, or a
list (an array-like, which sends `pd.isna` down its element-wise path). -/
inductive PyVal where
  | vNone
  | vNan
  | vStr (s : String)
  | vList (xs : List PyVal)

/-- Scalar (non-array-like) Python values. -/
def PyVal.isScalar : PyVal → Bool
  | .vList _ => false
  | _ => true

/-- `pd.isna` on one scalar: true exactly for `None` and `nan`. -/
def isnaScalar : PyVal → Bool
  | .vNone => true
  | .vNan => true
  | _ => false

/-- `pd.isna(v)`: a scalar Bool for scalar input, an element-wise Bool
array for a list input (a non-null object element, including a nested
list, maps to `false`). -/
def pyIsna : PyVal → Sum Bool (List Bool)
  | .vList xs => .inr (xs.map isnaScalar)
  | v => .inl (isnaScalar v)

/-- The message of the `ValueError` NumPy raises when a multi-element
Bool array is forced to a single truth value (as `or` does). -/
def arrayAmbiguousMsg : String :=
  "The truth value of an array with more than one element is ambiguous. Use a.any() or a.all()"

/-- The truth value the Python `or` extracts from a `pd.isna` result: a
scalar Bool is itself; a one-element array converts to its element; any
other array raises `ValueError`. -/
def pyTruth : Sum Bool (List Bool) → Except String Bool
  | .inl b => .ok b
  | .inr bs => if bs.length = 1 then .ok (bs.getD 0 false) else .error arrayAmbiguousMsg

/-- Python `repr` of a scalar, as `str()` of a list renders its
elements. Rendering of the elements of a nested list is abbreviated (no
property below depends on it). -/
def pyReprScalar : PyVal → String
  | .vNone => "None"
  | .vNan => "nan"
  | .vStr s => "\x27" ++ s ++ "\x27"
  | .vList _ => "[...]"

/-- Python `str(v)` for the modelled values. -/
def pyStr : PyVal → String
  | .vNone => "None"
  | .vNan => "nan"
  | .vStr s => s
  | .vList xs => "[" ++ pyJoin ", " (xs.map pyReprScalar) ++ "]"

/-- The guard on line 47 of the source:
`pd.isna(text) or str(text).strip() == ''`. It raises — as Python does —
when `pd.isna` returns a multi-element array whose truth value is
ambiguous. (The Python `or` would skip `str(text)` when the left side is
true; `pyStr` is total, so evaluating it unconditionally agrees.) -/
def blankGuard (text : PyVal) : Except String Bool :=
  match pyTruth (pyIsna text) with
  | .error e => .error e
  | .ok b => .ok (b || pyStrip (pyStr text) == "")

/-- The five-field record `classify_text` returns (source line 21 names
the columns Lv1#, Lv1name, Lv2#, Lv2name, 理由). -/
structure ClassificationResult where
  lv1_code : String
  lv1_name : String
  lv2_code : String
  lv2_name : String
  reason : String
deriving DecidableEq, Repr

/-- The all-empty result returned for blank input (source line 48). -/
def emptyResult : ClassificationResult := ⟨"", "", "", "", ""⟩

/-- `line.split(marker)[1].strip()` (source lines 76 and 78): the text
between the first and second occurrence of the marker on the line (to
the end of the line when the marker occurs once), stripped. The source
only evaluates this on lines containing the marker, so index 1 exists
and the `getD` default is never taken there. -/
def afterMarker (marker line : String) : String :=
  pyStrip ((pySplit marker line).getD 1 "")

/-- The marker-scanning loop of `classify_text` (source lines 73–78):
one pass over the reply lines; a line containing `分類:` assigns
`classification`, otherwise a line containing `理由:` assigns `reason`;
every other line is skipped. Each matching line overwrites the previous
assignment. -/
def scanReply (lines : List String) : String × String :=
  lines.foldl
    (fun acc line =>
      if pyContains "分類:" line then (afterMarker "分類:" line, acc.2)
      else if pyContains "理由:" line then (acc.1, afterMarker "理由:" line)
      else acc)
    ("", "")

/-- Reply parsing of `classify_text` (source lines 73–82): scan the
lines for the two markers, split the classification text on commas,
strip each part, and populate the four fields exactly when the split has
length 4; otherwise return them empty. The reason is returned either
way. -/
def parseReply (content : String) : ClassificationResult :=
  let scanned := scanReply (splitlines content)
  let parts := (pySplit "," scanned.1).map pyStrip
  if parts.length = 4 then
    ⟨parts.getD 0 "", parts.getD 1 "", parts.getD 2 "", parts.getD 3 "", scanned.2⟩
  else
    ⟨"", "", "", "", scanned.2⟩

/-- The user-prompt f-string of `classify_text` (source lines 50–62),
with the item text run through `str(...).strip()` and the taxonomy block spliced
in. -/
def buildPrompt (text : PyVal) (category_prompt : String) : String :=
  "\n以下の情報を基にコスト費目を分類してください：\n\n概要: " ++ pyStrip (pyStr text)
    ++ "\n\n" ++ category_prompt
    ++ "\n\n指示:\n* 上記の分類表の中から該当するものを選んでください。\n* 出力形式は以下としてください：\n  分類: Lv1#,Lv1name,Lv2#,Lv2name\n  理由: <分類の根拠（任意）>\n"

/-- `classify_text` (source lines 46–84). The outer `Except` records an
exception escaping `classify_text` itself, which happens exactly when
the line-47 guard raises before the `try` block; the `Nat` counts oracle
invocations. A successful oracle exchange is parsed; an oracle exception
`e` is caught by the `except` clause and converted to the `エラー`
sentinel row with `reason = str(e)`. -/
def classify_text (oracle : String → Except String String) (text : PyVal)
    (category_prompt : String) : Except String (ClassificationResult × Nat) :=
  match blankGuard text with
  | .error e => .error e
  | .ok true => .ok (emptyResult, 0)
  | .ok false =>
    match oracle (buildPrompt text category_prompt) with
    | .ok content => .ok (parseReply content, 1)
    | .error e => .ok (⟨"エラー", "", "", "", e⟩, 1)

/-- One data row of the taxonomy sheet after pandas reads columns B–F
with `header=4` and the columns are renamed positionally (source lines
34–35): five cells, each either missing (pandas `NaN`, modelled `none`)
or present with a string rendering of its value. -/
structure RawRow where
  lv1 : Option String
  lv1n : Option String
  lv2 : Option String
  lv2n : Option String
  desc : Option String
deriving DecidableEq, Repr

/-- One loaded taxonomy row: all five cells as strings. -/
structure CatRow where
  lv1_code : String
  lv1_name : String
  lv2_code : String
  lv2_name : String
  description : String
deriving DecidableEq, Repr

/-- `fillna` with the empty string followed by `astype(str)` on one cell: a missing cell
becomes the empty string, a present cell keeps its string value. -/
def fillCell : Option String → String
  | none => ""
  | some s => s

/-- Row-wise effect of `df.fillna` with the empty string and `df.astype(str)` (source
lines 37–38). -/
def fillRow (r : RawRow) : CatRow :=
  ⟨fillCell r.lv1, fillCell r.lv1n, fillCell r.lv2, fillCell r.lv2n, fillCell r.desc⟩

/-- `load_category_table` (source lines 33–38), after pandas has read
the sheet: keep the rows whose `Lv1#` cell is `notna`, then fill the
missing cells with the empty string and coerce all cells to `str`. -/
def load_category_table (rows : List RawRow) : List CatRow :=
  (rows.filter (fun r => r.lv1.isSome)).map fillRow

/-- The five fields of a loaded row in source column order (source
line 43 selects them in this order before joining). -/
def rowFields (r : CatRow) : List String :=
  [r.lv1_code, r.lv1_name, r.lv2_code, r.lv2_name, r.description]

/-- The fixed header of the taxonomy block (source line 42). -/
def categoryHeader : String := "分類表:\n    Lv1#;Lv1name;Lv2#;Lv2name;説明"

/-- `generate_category_prompt` (source lines 41–44): the header, a
newline, then the rows each rendered as four spaces plus the
semicolon-join of its five fields, joined by newlines. -/
def generate_category_prompt (df : List CatRow) : String :=
  categoryHeader ++ "\n"
    ++ pyJoin "\n" (df.map (fun r => "    " ++ pyJoin ";" (rowFields r)))

/-- How a batch run can fail as a whole: the 500-row limit (source
lines 112–113), or a Python exception escaping the loop. -/
inductive BatchError where
  | rowLimit
  | pyError (msg : String)
deriving DecidableEq, Repr

/-- The per-item loop of the batch branch (source lines 118–123):
classify each item in order, collecting the results in input order
together with the total number of oracle invocations. An exception
escaping `classify_text` aborts the loop — the source has no `try`
around it. -/
def runItems (oracle : String → Except String String) (category_prompt : String) :
    List PyVal → Except String (List ClassificationResult × Nat)
  | [] => .ok ([], 0)
  | t :: ts =>
    match classify_text oracle t category_prompt with
    | .error e => .error e
    | .ok (r, c) =>
      match runItems oracle category_prompt ts with
      | .error e => .error e
      | .ok (rs, cs) => .ok (r :: rs, c + cs)

/-- The batch branch (source lines 112–124): refuse item lists longer
than 500 rows before classifying anything, otherwise run the per-item
loop. -/
def runBatch (oracle : String → Except String String) (category_prompt : String)
    (items : List PyVal) : Except BatchError (List ClassificationResult × Nat) :=
  if items.length > 500 then .error .rowLimit
  else
    match runItems oracle category_prompt items with
    | .ok out => .ok out
    | .error e => .error (.pyError e)

/-- Items that take the blank short-circuit of line 47: `None`, `nan`,
or a string that strips to empty. -/
def isBlankItem : PyVal → Bool
  | .vNone => true
  | .vNan => true
  | .vStr s => pyStrip s == ""
  | .vList _ => false

/-! ## Helper lemmas -/

/-- On a scalar input the line-47 guard never raises: `pd.isna` returns
a plain Bool and `or` needs no array conversion. -/
theorem blankGuard_scalar (t : PyVal) (h : t.isScalar = true) :
    blankGuard t = .ok (isnaScalar t || pyStrip (pyStr t) == "") := by
  cases t <;> simp_all [blankGuard, pyIsna, pyTruth, PyVal.isScalar]

/-- On a scalar input `classify_text` always returns a result record
(the only raising path is the array branch of the guard). -/
theorem classify_text_scalar_ok (oracle : String → Except String String)
    (p : String) (t : PyVal) (h : t.isScalar = true) :
    ∃ r c, classify_text oracle t p = .ok (r, c) := by
  rw [classify_text, blankGuard_scalar t h]
  cases isnaScalar t || pyStrip (pyStr t) == ""
  · cases oracle (buildPrompt t p) <;> exact ⟨_, _, rfl⟩
  · exact ⟨_, _, rfl⟩

/-- A blank item short-circuits at the guard: the all-empty record comes
back and the oracle is not invoked. -/
theorem classify_text_blank (oracle : String → Except String String)
    (p : String) (t : PyVal) (h : isBlankItem t = true) :
    classify_text oracle t p = .ok (emptyResult, 0) := by
  cases t <;> simp_all [classify_text, blankGuard, pyIsna, pyTruth, isnaScalar,
    pyStr, isBlankItem]

/-! ## Claims -/

/-- C1 counterexample: the claim says the FIRST line matching `分類:`
wins, so appending a second matching line should not change the parsed
classification. On the reply with the two lines `分類: A1,N1,B1,M1` and
`分類: A2,N2,B2,M2` the parser returns the tuple of the SECOND line,
while the one-line reply returns the first tuple — the later matching
line did change the parsed classification. -/
theorem c1_counterexample :
    parseReply "分類: A1,N1,B1,M1\n分類: A2,N2,B2,M2" = ⟨"A2", "N2", "B2", "M2", ""⟩ ∧
    parseReply "分類: A1,N1,B1,M1" = ⟨"A1", "N1", "B1", "M1", ""⟩ := by
  decide

/-- C1 (amended): in the reply scan of `classify_text`, the LAST line
matching a marker wins: extending the reply by one more line overwrites
the classification when the new line contains `分類:`, overwrites the
reason when it contains only `理由:`, and changes nothing otherwise. -/
theorem c1_last_match_wins (lines : List String) (l : String) :
    scanReply (lines ++ [l]) =
      if pyContains "分類:" l then (afterMarker "分類:" l, (scanReply lines).2)
      else if pyContains "理由:" l then ((scanReply lines).1, afterMarker "理由:" l)
      else scanReply lines := by
  unfold scanReply
  rw [List.foldl_append]
  rfl

/-- Closed form of `parseReply`: the let-bindings of the definition
inlined. -/
theorem parseReply_eq (content : String) :
    parseReply content =
      if ((pySplit "," (scanReply (splitlines content)).1).map pyStrip).length = 4 then
        ⟨((pySplit "," (scanReply (splitlines content)).1).map pyStrip).getD 0 "",
         ((pySplit "," (scanReply (splitlines content)).1).map pyStrip).getD 1 "",
         ((pySplit "," (scanReply (splitlines content)).1).map pyStrip).getD 2 "",
         ((pySplit "," (scanReply (splitlines content)).1).map pyStrip).getD 3 "",
         (scanReply (splitlines content)).2⟩
      else ⟨"", "", "", "", (scanReply (splitlines content)).2⟩ := rfl

/-- C2 counterexample: the reply `分類: A1,,B2,Name2` splits into
exactly 4 comma segments of which the second is empty after stripping;
the claim then requires all four classification fields to be empty, but
the code checks only the arity and populates them, yielding a partially
filled record. -/
theorem c2_counterexample :
    parseReply "分類: A1,,B2,Name2\n理由: x" = ⟨"A1", "", "B2", "Name2", "x"⟩ ∧
    ¬ ("A1" = "" ∧ "" = "" ∧ "B2" = "" ∧ "Name2" = "") := by
  decide

/-- C2 (amended): for a non-blank item and a successful oracle exchange,
`classify_text` returns the parsed reply, and the four classification
fields are populated from the comma split of the classification text if
and only if that split has exactly 4 segments — the stripped segments
may individually be empty (no non-emptiness check); for any other arity
all four fields are empty. The parsed reason is returned either way. -/
theorem c2_arity_only_parse (oracle : String → Except String String)
    (text : PyVal) (p content : String)
    (hb : blankGuard text = .ok false)
    (ho : oracle (buildPrompt text p) = .ok content) :
    classify_text oracle text p = .ok (parseReply content, 1) ∧
    (((pySplit "," (scanReply (splitlines content)).1).map pyStrip).length = 4 →
      parseReply content =
        ⟨((pySplit "," (scanReply (splitlines content)).1).map pyStrip).getD 0 "",
         ((pySplit "," (scanReply (splitlines content)).1).map pyStrip).getD 1 "",
         ((pySplit "," (scanReply (splitlines content)).1).map pyStrip).getD 2 "",
         ((pySplit "," (scanReply (splitlines content)).1).map pyStrip).getD 3 "",
         (scanReply (splitlines content)).2⟩) ∧
    (((pySplit "," (scanReply (splitlines content)).1).map pyStrip).length ≠ 4 →
      parseReply content = ⟨"", "", "", "", (scanReply (splitlines content)).2⟩) := by
  refine ⟨by simp [classify_text, hb, ho], fun h4 => ?_, fun h4 => ?_⟩
  · rw [parseReply_eq, if_pos h4]
  · rw [parseReply_eq, if_neg h4]

/-- C2 witness: the malformed-arity example of the spec, `分類: A1,Name1`
with reason `x`, at a concrete non-blank item and stub oracle. -/
theorem c2_witness :
    blankGuard (.vStr "消耗品費") = .ok false ∧
    ((fun _ : String => (Except.ok "分類: A1,Name1\n理由: x" : Except String String))
        (buildPrompt (.vStr "消耗品費") "") = .ok "分類: A1,Name1\n理由: x") ∧
    classify_text (fun _ => .ok "分類: A1,Name1\n理由: x") (.vStr "消耗品費") "" =
      .ok (parseReply "分類: A1,Name1\n理由: x", 1) :=
  ⟨rfl, rfl,
    (c2_arity_only_parse (fun _ => .ok "分類: A1,Name1\n理由: x")
      (.vStr "消耗品費") "" "分類: A1,Name1\n理由: x" rfl rfl).1⟩

/-- C3: when the item is non-blank and the oracle call raises with
message `e`, `classify_text` catches the exception and returns the
`エラー` sentinel in `lv1_code`, empty middle fields, and `str(e)` as
the reason; no exception escapes (the return value is `.ok`). -/
theorem c3_oracle_exception (oracle : String → Except String String)
    (text : PyVal) (p e : String)
    (hb : blankGuard text = .ok false)
    (ho : oracle (buildPrompt text p) = .error e) :
    classify_text oracle text p = .ok (⟨"エラー", "", "", "", e⟩, 1) := by
  simp [classify_text, hb, ho]

/-- C3 witness: a stub oracle that always raises `Connection error.` on
the concrete item 旅費. -/
theorem c3_witness :
    blankGuard (.vStr "旅費") = .ok false ∧
    ((fun _ : String => (Except.error "Connection error." : Except String String))
        (buildPrompt (.vStr "旅費") "") = .error "Connection error.") ∧
    classify_text (fun _ => .error "Connection error.") (.vStr "旅費") "" =
      .ok (⟨"エラー", "", "", "", "Connection error."⟩, 1) :=
  ⟨rfl, rfl, c3_oracle_exception (fun _ => .error "Connection error.")
    (.vStr "旅費") "" "Connection error." rfl rfl⟩

/-- C4: for a null/NaN item or a string item that strips to empty,
`classify_text` returns the all-empty record with zero oracle
invocations (so no request is built and the oracle is not called). -/
theorem c4_blank_short_circuit (oracle : String → Except String String)
    (p : String) (text : PyVal)
    (h : text = .vNone ∨ text = .vNan ∨ ∃ s, text = .vStr s ∧ pyStrip s = "") :
    classify_text oracle text p = .ok (emptyResult, 0) := by
  apply classify_text_blank
  rcases h with h | h | ⟨s, h, hs⟩
  · subst h; rfl
  · subst h; rfl
  · subst h; simp [isBlankItem, hs]

/-- C4 witness: the whitespace-only item consisting of three spaces,
with an oracle whose reply would parse successfully if it were called. -/
theorem c4_witness :
    ((.vStr "   " : PyVal) = .vNone ∨ (.vStr "   " : PyVal) = .vNan ∨
      ∃ s, (.vStr "   " : PyVal) = .vStr s ∧ pyStrip s = "") ∧
    classify_text (fun _ => .ok "分類: 1,a,2,b") (.vStr "   ") "" = .ok (emptyResult, 0) :=
  ⟨Or.inr (Or.inr ⟨"   ", rfl, rfl⟩),
    c4_blank_short_circuit (fun _ => .ok "分類: 1,a,2,b") "" (.vStr "   ")
      (Or.inr (Or.inr ⟨"   ", rfl, rfl⟩))⟩

/-- The per-item loop on a list of scalar items succeeds, returns one
result per item in order, and the result at index `i` is what
`classify_text` returns on item `i`. -/
theorem runItems_scalar (oracle : String → Except String String) (p : String) :
    ∀ items : List PyVal, (∀ v ∈ items, v.isScalar = true) →
      ∃ rs calls, runItems oracle p items = .ok (rs, calls) ∧
        rs.length = items.length ∧
        ∀ i : Fin items.length, ∃ c,
          classify_text oracle (items.get i) p = .ok (rs.getD i.1 emptyResult, c)
  | [], _ => ⟨[], 0, rfl, rfl, fun i => i.elim0⟩
  | t :: ts, h => by
    obtain ⟨r, c, hr⟩ := classify_text_scalar_ok oracle p t (h t (List.mem_cons_self t ts))
    obtain ⟨rs, calls, hrun, hlen, hidx⟩ :=
      runItems_scalar oracle p ts (fun v hv => h v (List.mem_cons_of_mem t hv))
    refine ⟨r :: rs, c + calls, ?_, by simp [hlen], ?_⟩
    · simp [runItems, hr, hrun]
    · intro i
      match i with
      | ⟨0, _⟩ => exact ⟨c, hr⟩
      | ⟨j + 1, hj⟩ =>
        obtain ⟨c', hc'⟩ := hidx ⟨j, Nat.lt_of_succ_lt_succ hj⟩
        exact ⟨c', hc'⟩

/-- C5: a batch over at most 500 scalar items succeeds with exactly one
result per item, index-aligned: the result at index `i` is
`classify_text` of the item at index `i`; in particular blank items
yield the all-empty record at their index. -/
theorem c5_batch_index_aligned (oracle : String → Except String String)
    (p : String) (items : List PyVal) (hlen : items.length ≤ 500)
    (hs : ∀ v ∈ items, v.isScalar = true) :
    ∃ rs calls, runBatch oracle p items = .ok (rs, calls) ∧
      rs.length = items.length ∧
      (∀ i : Fin items.length, ∃ c,
        classify_text oracle (items.get i) p = .ok (rs.getD i.1 emptyResult, c)) ∧
      (∀ i : Fin items.length, isBlankItem (items.get i) = true →
        rs.getD i.1 emptyResult = emptyResult) := by
  obtain ⟨rs, calls, hrun, hl, hidx⟩ := runItems_scalar oracle p items hs
  refine ⟨rs, calls, ?_, hl, hidx, ?_⟩
  · unfold runBatch
    rw [if_neg (by omega), hrun]
  · intro i hb
    obtain ⟨c, hc⟩ := hidx i
    rw [classify_text_blank oracle p (items.get i) hb] at hc
    have h2 := Except.ok.inj hc
    exact (congrArg Prod.fst h2).symm

/-- C5 witness: a two-item batch (one blank, one real item) with a stub
oracle, discharging both hypotheses concretely. -/
theorem c5_witness :
    ([PyVal.vNone, PyVal.vStr "通信費"].length ≤ 500) ∧
    (∀ v ∈ [PyVal.vNone, PyVal.vStr "通信費"], v.isScalar = true) ∧
    (∃ rs calls,
      runBatch (fun _ => .ok "分類: 1,a,2,b") "" [PyVal.vNone, PyVal.vStr "通信費"] =
        .ok (rs, calls) ∧
      rs.length = [PyVal.vNone, PyVal.vStr "通信費"].length ∧
      (∀ i : Fin [PyVal.vNone, PyVal.vStr "通信費"].length, ∃ c,
        classify_text (fun _ => .ok "分類: 1,a,2,b")
            ([PyVal.vNone, PyVal.vStr "通信費"].get i) "" =
          .ok (rs.getD i.1 emptyResult, c)) ∧
      (∀ i : Fin [PyVal.vNone, PyVal.vStr "通信費"].length,
        isBlankItem ([PyVal.vNone, PyVal.vStr "通信費"].get i) = true →
        rs.getD i.1 emptyResult = emptyResult)) :=
  ⟨by decide, by decide,
    c5_batch_index_aligned (fun _ => .ok "分類: 1,a,2,b") ""
      [PyVal.vNone, PyVal.vStr "通信費"] (by decide) (by decide)⟩

/-- C6: a batch of more than 500 items fails with the row-limit error —
for EVERY oracle, so the refusal involves no oracle invocation — while a
batch of exactly 500 scalar items runs normally, producing 500 results. -/
theorem c6_row_limit :
    (∀ (oracle : String → Except String String) (p : String) (items : List PyVal),
      items.length > 500 → runBatch oracle p items = .error .rowLimit) ∧
    (∀ (oracle : String → Except String String) (p : String) (items : List PyVal),
      items.length = 500 → (∀ v ∈ items, v.isScalar = true) →
      ∃ rs calls, runBatch oracle p items = .ok (rs, calls) ∧ rs.length = 500) := by
  constructor
  · intro oracle p items h
    unfold runBatch
    rw [if_pos h]
  · intro oracle p items h500 hs
    obtain ⟨rs, calls, hrun, hl, _⟩ := runItems_scalar oracle p items hs
    refine ⟨rs, calls, ?_, by rw [hl, h500]⟩
    unfold runBatch
    rw [if_neg (by omega), hrun]

/-- C6 witness: a 501-item batch is refused with `rowLimit` for a stub
oracle, and a 500-item batch of blanks succeeds with 500 results. -/
theorem c6_witness :
    ((List.replicate 501 (PyVal.vStr "x")).length > 500 ∧
      runBatch (fun _ => .ok "分類: 1,a,2,b") "" (List.replicate 501 (PyVal.vStr "x")) =
        .error .rowLimit) ∧
    ((List.replicate 500 PyVal.vNone).length = 500 ∧
      (∀ v ∈ List.replicate 500 PyVal.vNone, v.isScalar = true) ∧
      ∃ rs calls,
        runBatch (fun _ => .ok "分類: 1,a,2,b") "" (List.replicate 500 PyVal.vNone) =
          .ok (rs, calls) ∧ rs.length = 500) :=
  ⟨⟨by simp, c6_row_limit.1 (fun _ => .ok "分類: 1,a,2,b") "" _ (by simp)⟩,
   ⟨by simp, fun v hv => by rw [List.eq_of_mem_replicate hv]; rfl,
     c6_row_limit.2 (fun _ => .ok "分類: 1,a,2,b") "" _ (by simp)
       (fun v hv => by rw [List.eq_of_mem_replicate hv]; rfl)⟩⟩

/-- C7 counterexample: a source row whose Lv1# cell is present but holds
the empty string passes the `notna` filter, so the loaded table contains
a row with empty `lv1_code` — refuting that only rows with non-empty
level-1 code survive the load. -/
theorem c7_counterexample :
    load_category_table [⟨some "", some "旅費", some "110", some "航空券", none⟩] =
      [⟨"", "旅費", "110", "航空券", ""⟩] ∧
    ¬ (∀ r ∈ load_category_table [⟨some "", some "旅費", some "110", some "航空券", none⟩],
        r.lv1_code ≠ "") := by
  decide

/-- C7 (amended): the loader drops exactly the rows whose Lv1# cell is
missing; every kept row is a source row with a present Lv1# cell whose
remaining missing cells are replaced by the empty string (all cells
strings); and `lv1_code` is non-empty provided no present Lv1# cell of
the source is itself the empty string (`notna` does not filter explicit
empty strings). -/
theorem c7_loader_invariants (rows : List RawRow)
    (hne : ∀ r ∈ rows, ∀ s, r.lv1 = some s → s ≠ "") :
    (∀ out ∈ load_category_table rows, out.lv1_code ≠ "") ∧
    (∀ out ∈ load_category_table rows,
      ∃ raw, raw ∈ rows ∧ raw.lv1.isSome = true ∧ out = fillRow raw) ∧
    (∀ raw ∈ rows, raw.lv1.isSome = true → fillRow raw ∈ load_category_table rows) := by
  refine ⟨?_, ?_, ?_⟩
  · intro out hout
    simp only [load_category_table, List.mem_map, List.mem_filter] at hout
    obtain ⟨raw, ⟨hmem, hsome⟩, hfill⟩ := hout
    cases hl : raw.lv1 with
    | none => rw [hl] at hsome; simp at hsome
    | some s =>
      have hs := hne raw hmem s hl
      subst hfill
      simpa [fillRow, fillCell, hl] using hs
  · intro out hout
    simp only [load_category_table, List.mem_map, List.mem_filter] at hout
    obtain ⟨raw, ⟨hmem, hsome⟩, hfill⟩ := hout
    exact ⟨raw, hmem, hsome, hfill.symm⟩
  · intro raw hmem hsome
    simp only [load_category_table, List.mem_map, List.mem_filter]
    exact ⟨raw, ⟨hmem, hsome⟩, rfl⟩

/-- C7 witness: a two-row source (one full row, one row with missing
Lv1#) in which every present Lv1# cell is non-empty. -/
theorem c7_witness :
    (∀ r ∈ [(⟨some "100", some "Travel", some "110", some "Airfare", none⟩ : RawRow),
        ⟨none, some "x", none, none, none⟩], ∀ s, r.lv1 = some s → s ≠ "") ∧
    ((∀ out ∈ load_category_table [(⟨some "100", some "Travel", some "110", some "Airfare", none⟩ : RawRow),
        ⟨none, some "x", none, none, none⟩], out.lv1_code ≠ "") ∧
     (∀ out ∈ load_category_table [(⟨some "100", some "Travel", some "110", some "Airfare", none⟩ : RawRow),
        ⟨none, some "x", none, none, none⟩],
       ∃ raw, raw ∈ [(⟨some "100", some "Travel", some "110", some "Airfare", none⟩ : RawRow),
          ⟨none, some "x", none, none, none⟩] ∧ raw.lv1.isSome = true ∧ out = fillRow raw) ∧
     (∀ raw ∈ [(⟨some "100", some "Travel", some "110", some "Airfare", none⟩ : RawRow),
        ⟨none, some "x", none, none, none⟩], raw.lv1.isSome = true →
       fillRow raw ∈ load_category_table [(⟨some "100", some "Travel", some "110", some "Airfare", none⟩ : RawRow),
        ⟨none, some "x", none, none, none⟩]))  := by
  have hne : ∀ r ∈ [(⟨some "100", some "Travel", some "110", some "Airfare", none⟩ : RawRow),
      ⟨none, some "x", none, none, none⟩], ∀ s, r.lv1 = some s → s ≠ "" := by
    intro r hr s hs
    rcases List.mem_cons.mp hr with h | h
    · subst h; simp_all; subst hs; decide
    · rcases List.mem_cons.mp h with h2 | h2
      · subst h2; simp_all
      · cases h2
  exact ⟨hne, c7_loader_invariants _ hne⟩

/-- C8 counterexample: on the oracle reply `分類: X,,Y,Z` (four comma
segments, the second empty) `classify_text` yields a record whose
`lv1_code` is populated while `lv1_name` is empty and `lv1_code` is not
the error sentinel — violating the all-four-or-none invariant. -/
theorem c8_counterexample :
    classify_text (fun _ => .ok "分類: X,,Y,Z") (.vStr "備品") "" =
      .ok (⟨"X", "", "Y", "Z", ""⟩, 1) ∧
    ("X" : String) ≠ "" ∧ ("" : String) = "" ∧ ("X" : String) ≠ "エラー" :=
  ⟨rfl, by decide, rfl, by decide⟩

/-- C8 (amended): every record `classify_text` returns has one of three
shapes: all four classification fields empty; the `エラー` sentinel in
`lv1_code` with the other three empty; or the four fields equal to the
stripped segments of some 4-way comma split of the classification
text of the reply — where individual segments may be empty, so the
four fields need not all be populated. `reason` is independent. -/
theorem c8_result_shapes (oracle : String → Except String String)
    (text : PyVal) (p : String) (r : ClassificationResult) (n : Nat)
    (h : classify_text oracle text p = .ok (r, n)) :
    (r.lv1_code = "" ∧ r.lv1_name = "" ∧ r.lv2_code = "" ∧ r.lv2_name = "") ∨
    (r.lv1_code = "エラー" ∧ r.lv1_name = "" ∧ r.lv2_code = "" ∧ r.lv2_name = "") ∨
    (∃ cls, ((pySplit "," cls).map pyStrip).length = 4 ∧
      r.lv1_code = ((pySplit "," cls).map pyStrip).getD 0 "" ∧
      r.lv1_name = ((pySplit "," cls).map pyStrip).getD 1 "" ∧
      r.lv2_code = ((pySplit "," cls).map pyStrip).getD 2 "" ∧
      r.lv2_name = ((pySplit "," cls).map pyStrip).getD 3 "") := by
  unfold classify_text at h
  cases hb : blankGuard text with
  | error e => rw [hb] at h; exact absurd h (by simp)
  | ok b =>
    rw [hb] at h
    cases b
    · cases ho : oracle (buildPrompt text p) with
      | ok content =>
        rw [ho] at h
        injection h with h1
        injection h1 with hr hn
        rw [parseReply_eq] at hr
        by_cases h4 :
            ((pySplit "," (scanReply (splitlines content)).1).map pyStrip).length = 4
        · rw [if_pos h4] at hr
          refine Or.inr (Or.inr ⟨(scanReply (splitlines content)).1, h4, ?_, ?_, ?_, ?_⟩) <;>
            rw [← hr]
        · rw [if_neg h4] at hr
          exact Or.inl (by rw [← hr]; exact ⟨rfl, rfl, rfl, rfl⟩)
      | error e =>
        rw [ho] at h
        injection h with h1
        injection h1 with hr hn
        exact Or.inr (Or.inl (by rw [← hr]; exact ⟨rfl, rfl, rfl, rfl⟩))
    · injection h with h1
      injection h1 with hr hn
      exact Or.inl (by rw [← hr]; exact ⟨rfl, rfl, rfl, rfl⟩)

/-- C8 witness: the shape disjunction at a concrete successful
classification. -/
theorem c8_witness :
    classify_text (fun _ => .ok "分類: 1,a,2,b") (.vStr "水道光熱費") "" =
      .ok (⟨"1", "a", "2", "b", ""⟩, 1) ∧
    (((⟨"1", "a", "2", "b", ""⟩ : ClassificationResult).lv1_code = "" ∧
      (⟨"1", "a", "2", "b", ""⟩ : ClassificationResult).lv1_name = "" ∧
      (⟨"1", "a", "2", "b", ""⟩ : ClassificationResult).lv2_code = "" ∧
      (⟨"1", "a", "2", "b", ""⟩ : ClassificationResult).lv2_name = "") ∨
    ((⟨"1", "a", "2", "b", ""⟩ : ClassificationResult).lv1_code = "エラー" ∧
      (⟨"1", "a", "2", "b", ""⟩ : ClassificationResult).lv1_name = "" ∧
      (⟨"1", "a", "2", "b", ""⟩ : ClassificationResult).lv2_code = "" ∧
      (⟨"1", "a", "2", "b", ""⟩ : ClassificationResult).lv2_name = "") ∨
    (∃ cls, ((pySplit "," cls).map pyStrip).length = 4 ∧
      (⟨"1", "a", "2", "b", ""⟩ : ClassificationResult).lv1_code =
        ((pySplit "," cls).map pyStrip).getD 0 "" ∧
      (⟨"1", "a", "2", "b", ""⟩ : ClassificationResult).lv1_name =
        ((pySplit "," cls).map pyStrip).getD 1 "" ∧
      (⟨"1", "a", "2", "b", ""⟩ : ClassificationResult).lv2_code =
        ((pySplit "," cls).map pyStrip).getD 2 "" ∧
      (⟨"1", "a", "2", "b", ""⟩ : ClassificationResult).lv2_name =
        ((pySplit "," cls).map pyStrip).getD 3 "")) := by
  refine ⟨rfl, ?_⟩
  exact c8_result_shapes (fun _ => .ok "分類: 1,a,2,b") (.vStr "水道光熱費") ""
    ⟨"1", "a", "2", "b", ""⟩ 1 rfl

/-- Prepending onto the accumulator distributes over the join fold
(string append is associative). -/
theorem pyJoin_foldl_pull (sep : String) :
    ∀ (l : List String) (x y : String),
      l.foldl (fun acc z => acc ++ sep ++ z) (x ++ y) =
        x ++ l.foldl (fun acc z => acc ++ sep ++ z) y := by
  intro l
  induction l with
  | nil => intro x y; rfl
  | cons z zs ih =>
    intro x y
    simp only [List.foldl_cons]
    rw [String.append_assoc x y sep, String.append_assoc x (y ++ sep) z]
    exact ih x (y ++ sep ++ z)

/-- Unfolding one step of a two-or-more element join. -/
theorem pyJoin_cons_cons (sep a b : String) (l : List String) :
    pyJoin sep (a :: b :: l) = a ++ sep ++ pyJoin sep (b :: l) := by
  show (b :: l).foldl (fun acc z => acc ++ sep ++ z) a = _
  simp only [List.foldl_cons]
  exact pyJoin_foldl_pull sep l (a ++ sep) b

/-- C9: on any non-empty taxonomy table, the rendered block is exactly
the newline join of the two fixed header lines followed by one line
per table row — four spaces then the five fields of the row joined by
semicolons — in table order; and the rendering is deterministic (equal
tables give byte-identical output). -/
theorem c9_prompt_render :
    (∀ (r : CatRow) (rs : List CatRow),
      generate_category_prompt (r :: rs) =
        pyJoin "\n" ("分類表:" :: "    Lv1#;Lv1name;Lv2#;Lv2name;説明" ::
          (r :: rs).map (fun row => "    " ++ pyJoin ";" (rowFields row)))) ∧
    (∀ t₁ t₂ : List CatRow, t₁ = t₂ →
      generate_category_prompt t₁ = generate_category_prompt t₂) := by
  constructor
  · intro r rs
    simp only [List.map_cons]
    rw [pyJoin_cons_cons, pyJoin_cons_cons]
    have hh : categoryHeader = "分類表:" ++ "\n" ++ "    Lv1#;Lv1name;Lv2#;Lv2name;説明" := by
      decide
    show categoryHeader ++ "\n" ++ _ = _
    rw [hh, String.append_assoc, String.append_assoc, String.append_assoc]
    rfl
  · intro t₁ t₂ h
    rw [h]

/-- C9 witness: both parts at the concrete one-row taxonomy table
(100, Travel, 110, Airfare, flights). -/
theorem c9_witness :
    (generate_category_prompt [⟨"100", "Travel", "110", "Airfare", "flights"⟩] =
      pyJoin "\n" ("分類表:" :: "    Lv1#;Lv1name;Lv2#;Lv2name;説明" ::
        [(⟨"100", "Travel", "110", "Airfare", "flights"⟩ : CatRow)].map
          (fun row => "    " ++ pyJoin ";" (rowFields row)))) ∧
    ([(⟨"100", "Travel", "110", "Airfare", "flights"⟩ : CatRow)] =
      [(⟨"100", "Travel", "110", "Airfare", "flights"⟩ : CatRow)] →
      generate_category_prompt [(⟨"100", "Travel", "110", "Airfare", "flights"⟩ : CatRow)] =
        generate_category_prompt [(⟨"100", "Travel", "110", "Airfare", "flights"⟩ : CatRow)]) :=
  ⟨c9_prompt_render.1 ⟨"100", "Travel", "110", "Airfare", "flights"⟩ [],
   c9_prompt_render.2 _ _⟩

/-- C10 counterexample: on the list input `[None, None]` — a legal
Python value for the `text` parameter — `pd.isna` returns a two-element
array, `or` forces its ambiguous truth value, and the resulting
`ValueError` is raised on line 47, OUTSIDE the `try` block: an exception
escapes `classify_text`, refuting totality over inputs of any type. -/
theorem c10_counterexample :
    classify_text (fun _ => .ok "分類: a,b,c,d") (.vList [.vNone, .vNone]) "" =
      .error arrayAmbiguousMsg := rfl

/-- C10 (amended): `classify_text` is total on every SCALAR input
(string, None, NaN): it returns a record and an invocation count and
never raises, because the only raising path is the array branch of the
line-47 guard and the oracle call and parsing sit inside the `try`. -/
theorem c10_scalar_totality (oracle : String → Except String String)
    (p : String) (t : PyVal) (h : t.isScalar = true) :
    ∃ r c, classify_text oracle t p = .ok (r, c) :=
  classify_text_scalar_ok oracle p t h

/-- C10 witness: totality at the concrete scalar item 雑費. -/
theorem c10_witness :
    (PyVal.vStr "雑費").isScalar = true ∧
    ∃ r c, classify_text (fun _ => .ok "分類: 1,a,2,b") (.vStr "雑費") "" = .ok (r, c) :=
  ⟨rfl, c10_scalar_totality (fun _ => .ok "分類: 1,a,2,b") "" (.vStr "雑費") rfl⟩

end TrialBalance
